import Mathlib

/-!
Verification development for the FastAPI mobile-emulator backend (`src/main.py`).

The embedding below is a shallow model of the program:

* JSON values (`JVal`) model Python objects passed to `json.dumps` / returned by
  `response.json()`; `JVal.truthy` models Python truthiness as used in the
  `if field:` guards of `format_log`.
* `Event` models the ordered dict built by `format_log` (optional keys absent
  when not inserted); `Event.toObj` is its serialized ordered-key/value form.
* `ConnectionManager` models the WebSocket hub: `connect`, `disconnect`, and
  `broadcast` via `asyncio.gather(..., return_exceptions=True)`, where the send
  outcome for each connection is supplied by an oracle `send` function and an
  `Except` value stands for a raised-or-returned coroutine result.
* `Db` models the `users_db` dict (insertion-ordered association list with
  unique keys in all reachable states; `dbSet` keeps the position of an
  existing key and appends a fresh one, like CPython dict assignment).
* Each endpoint is a function from its inputs, the db state, and (for the LLM
  endpoint) a peer-call outcome oracle, to the list of events handed to
  `log_and_broadcast` (in emission order, without the timestamp that
  `log_and_broadcast` appends), the HTTP-level result, and the new db state.

Abstractions, noted where used: wall-clock timestamps are oracle strings;
the textual rendering of Python exception messages in the generic
`except Exception` handler of `generate_llm_response` is abstracted to a
stand-in string (no claim depends on that text); `response.raise_for_status()`
is modelled as raising exactly when the status is outside 2xx.
-/

set_option linter.unusedVariables false

/-- JSON-like values: the payloads carried inside events, mirroring the Python
objects handed to `json.dumps` and produced by `response.json()`. -/
inductive JVal : Type where
  | str : String → JVal
  | num : Int → JVal
  | bool : Bool → JVal
  | null : JVal
  | obj : List (String × JVal) → JVal
  | arr : List JVal → JVal

/-- Python truthiness of a JSON value: `None`, `""`, `0`, `False`, `{}`, `[]`
are falsy, everything else truthy.  Used by the `if field:` guards of
`format_log`. -/
def JVal.truthy : JVal → Bool
  | JVal.str s => !(s == "")
  | JVal.num n => !(n == 0)
  | JVal.bool b => b
  | JVal.null => false
  | JVal.obj fields => !fields.isEmpty
  | JVal.arr xs => !xs.isEmpty

mutual

/-- Whether a key occurs anywhere (at any nesting depth) in a JSON value. -/
def JVal.hasKey (k : String) : JVal → Bool
  | JVal.obj fields => hasKeyInFields k fields
  | JVal.arr xs => hasKeyInArr k xs
  | _ => false

/-- Whether a key occurs in an object's field list, at any depth. -/
def hasKeyInFields (k : String) : List (String × JVal) → Bool
  | [] => false
  | (k2, v) :: rest => k2 == k || JVal.hasKey k v || hasKeyInFields k rest

/-- Whether a key occurs in any element of a JSON array, at any depth. -/
def hasKeyInArr (k : String) : List JVal → Bool
  | [] => false
  | v :: rest => JVal.hasKey k v || hasKeyInArr k rest

end

/-- The ordered dict produced by `format_log` (src/main.py lines 89-99):
`source` is always present; each optional field is present exactly when its
argument passed the `if field:` truthiness guard. -/
structure Event where
  source : String
  method : Option String
  url : Option String
  status : Option Int
  request_payload : Option JVal
  response_payload : Option JVal
  detail : Option String

/-- The empty placeholder event used only as a `getD` default in statements. -/
def emptyEvent : Event :=
  { source := "", method := none, url := none, status := none,
    request_payload := none, response_payload := none, detail := none }

/-- `format_log` (src/main.py lines 89-99): starts from `{"source": source}`
and inserts each optional field only when it is Python-truthy
(`if method: ...` etc.), so falsy values (`None`, `""`, `0`, `{}`, `[]`) are
omitted. -/
def format_log (source : String) (method : Option String) (url : Option String)
    (status : Option Int) (request_payload : Option JVal)
    (response_payload : Option JVal) (detail : Option String) : Event :=
  { source := source
    method := method.filter (fun m => !(m == ""))
    url := url.filter (fun u => !(u == ""))
    status := status.filter (fun n => !(n == 0))
    request_payload := request_payload.filter JVal.truthy
    response_payload := response_payload.filter JVal.truthy
    detail := detail.filter (fun d => !(d == "")) }

/-- One serialized entry (key/value pair) for a present optional field;
nothing for an absent one. -/
def optEntry {α : Type} (o : Option α) (k : String) (f : α → JVal) :
    List (String × JVal) :=
  match o with
  | some v => [(k, f v)]
  | none => []

/-- The ordered key/value form of an event, i.e. the dict that `json.dumps`
serializes: `source` first, then each present optional field in insertion
order. -/
def Event.toObj (e : Event) : List (String × JVal) :=
  ("source", JVal.str e.source) ::
    (optEntry e.method "method" JVal.str ++
      (optEntry e.url "url" JVal.str ++
        (optEntry e.status "status" JVal.num ++
          (optEntry e.request_payload "request_payload" (fun v => v) ++
            (optEntry e.response_payload "response_payload" (fun v => v) ++
              optEntry e.detail "detail" JVal.str)))))

/-- The keys present in the serialized form of an event, in order. -/
def Event.keys (e : Event) : List String :=
  e.toObj.map Prod.fst

/-- Whether a key named `password` occurs in any payload of the event, at any
nesting depth. -/
def Event.hasPasswordKey (e : Event) : Bool :=
  (match e.request_payload with
   | some v => JVal.hasKey "password" v
   | none => false) ||
  (match e.response_payload with
   | some v => JVal.hasKey "password" v
   | none => false)

/-- The WebSocket hub (src/main.py lines 46-71): the registry of live observer
connections.  `ο` is the connection-handle type (abstract; handles compare by
identity in Python, so reachable registries never hold duplicates). -/
structure ConnectionManager (ο : Type) : Type where
  active_connections : List ο

/-- `ConnectionManager.connect` (lines 50-53): after the transport accept
handshake, append the new connection to the registry. -/
def ConnectionManager.connect {ο : Type} (m : ConnectionManager ο) (w : ο) :
    ConnectionManager ο :=
  { active_connections := m.active_connections ++ [w] }

/-- `ConnectionManager.disconnect` (lines 55-58): remove the connection if it
is registered, otherwise do nothing (the `if websocket in ...` guard). -/
def ConnectionManager.disconnect {ο : Type} [DecidableEq ο]
    (m : ConnectionManager ο) (w : ο) : ConnectionManager ο :=
  if w ∈ m.active_connections then
    { active_connections := m.active_connections.erase w }
  else m

/-- Did this delivery attempt succeed? -/
def exceptOk {ε : Type} : Except ε Unit → Bool
  | Except.ok _ => true
  | Except.error _ => false

/-- Did this delivery attempt fail (raise)? -/
def exceptErr {ε : Type} : Except ε Unit → Bool
  | Except.ok _ => false
  | Except.error _ => true

/-- `asyncio.gather`: with `return_exceptions = true` every task's outcome
(success or exception) is collected into the result list and nothing is
raised; with `return_exceptions = false` the first exception propagates. -/
def gather {ε : Type} (tasks : List (Except ε Unit))
    (return_exceptions : Bool) : Except ε (List (Except ε Unit)) :=
  if return_exceptions then Except.ok tasks
  else
    match tasks.filterMap
        (fun t => match t with
          | Except.error e => some e
          | Except.ok _ => none) with
    | [] => Except.ok tasks
    | e :: _ => Except.error e

/-- `ConnectionManager.broadcast` (lines 60-71): send the message to every
registered connection via `asyncio.gather(..., return_exceptions=True)`; the
per-connection outcome is given by the `send` oracle.  The follow-up loop only
logs failed results — the `self.disconnect(connection)` call in the source is
commented out, so the registry is not touched. -/
def ConnectionManager.broadcast {ο μ ε : Type} (m : ConnectionManager ο)
    (message : μ) (send : ο → μ → Except ε Unit) :
    Except ε (List (Except ε Unit) × ConnectionManager ο) :=
  match gather (m.active_connections.map (fun c => send c message)) true with
  | Except.error e => Except.error e
  | Except.ok results => Except.ok (results, m)

/-- The message built by `log_and_broadcast` (lines 77-86): the event's
serialized form with a `"timestamp"` entry appended (the dict gains the new
key at the end), where `ts` is the wall-clock oracle. -/
def log_message (ts : String) (log_data : Event) : List (String × JVal) :=
  log_data.toObj ++ [("timestamp", JVal.str ts)]

/-- `log_and_broadcast` (lines 77-86): add the timestamp, broadcast, and
swallow any exception (`try ... except Exception: logger.error(...)`), so
nothing ever propagates to the request path. -/
def log_and_broadcast {ο ε : Type} (ts : String) (log_data : Event)
    (m : ConnectionManager ο)
    (send : ο → List (String × JVal) → Except ε Unit) :
    List (Except ε Unit) × ConnectionManager ο :=
  match m.broadcast (log_message ts log_data) send with
  | Except.ok r => r
  | Except.error _ => ([], m)

/-- The in-memory user directory `users_db` (line 31): an insertion-ordered
map from username to password. -/
abbrev Db : Type := List (String × String)

/-- Key lookup in `users_db` (`users_db.get(...)` / `in` membership). -/
def dbGet (db : Db) (k : String) : Option String :=
  (db.find? (fun p => p.1 == k)).map (fun p => p.2)

/-- Dict assignment `users_db[k] = v`: an existing key keeps its position and
gets the new value; a fresh key is appended. -/
def dbSet (db : Db) (k v : String) : Db :=
  if (dbGet db k).isSome then
    db.map (fun p => if p.1 == k then (k, v) else p)
  else db ++ [(k, v)]

/-- The HTTP-level outcome of an endpoint call: a 200 JSON body returned
normally, or a raised `HTTPException(status_code, detail)`. -/
inductive Result : Type where
  | ok : JVal → Result
  | httpError : Int → String → Result

/-- The body of the Ollama HTTP response as seen by `response.json()`:
either valid JSON or raw text that fails JSON parsing. -/
inductive PeerBody : Type where
  | json : JVal → PeerBody
  | nonJson : String → PeerBody

/-- The outcome of the single outbound `client.post` to Ollama:
a transport-level failure (`httpx.RequestError`: connection refused, timeout)
or a completed HTTP response with a status code and a body. -/
inductive PeerOutcome : Type where
  | transportError : String → PeerOutcome
  | response : Int → PeerBody → PeerOutcome

/-- The fallback text used when the Ollama JSON lacks a `response` field
(line 281). -/
def ollamaFallback : String :=
  "Error: No \x27response\x27 field found in Ollama output."

/-- The fixed Ollama endpoint URL (line 250). -/
def ollamaUrl : String := "http://localhost:11434/api/generate"

/-- `response.raise_for_status()` does not raise exactly for 2xx statuses. -/
def raise_for_status_ok (st : Int) : Bool :=
  200 ≤ st && st < 300

/-- The detail text of the generic `except Exception` handler (line 310);
the embedded `excMsg` stands in for the Python rendering of the exception. -/
def unexpected_error_detail (excMsg : String) : String :=
  "Unexpected error during LLM generation: " ++ excMsg

/-- The tail of `generate_llm_response`'s generic `except Exception` handler
(lines 308-318): emit a `server_error` event, then a terminal 500
`server_response`, and raise `HTTPException(500)`. -/
def internal_error_tail (e1 e2 e3 : Event) (urlPath excMsg : String)
    (db : Db) : List Event × Result × Db :=
  let e4 := format_log "server_error" (some "POST") (some urlPath) none none
    none (some (unexpected_error_detail excMsg))
  let e5 := format_log "server_response" (some "POST") (some urlPath)
    (some 500) none (some (JVal.obj [("detail", JVal.str "Internal server error")])) none
  ([e1, e2, e3, e4, e5], Result.httpError 500 "Internal server error", db)

/-- `register_user` (src/main.py lines 147-167). -/
def register_user (db : Db) (username password urlPath : String) :
    List Event × Result × Db :=
  let e1 := format_log "client_request" (some "POST") (some urlPath) none
    (some (JVal.obj [("username", JVal.str username)])) none none
  if (dbGet db username).isSome then
    let rp := JVal.obj [("detail", JVal.str "Username already registered")]
    let e2 := format_log "server_response" (some "POST") (some urlPath)
      (some 400) none (some rp) none
    ([e1, e2], Result.httpError 400 "Username already registered", db)
  else
    let rp := JVal.obj [("status", JVal.str "success"),
      ("message", JVal.str ("User \x27" ++ username ++ "\x27 registered"))]
    let e2 := format_log "server_response" (some "POST") (some urlPath)
      (some 200) none (some rp) none
    ([e1, e2], Result.ok rp, dbSet db username password)

/-- `login_user` (src/main.py lines 169-189).  The failure guard mirrors
`if not stored_password or stored_password != user.password`. -/
def login_user (db : Db) (username password urlPath : String) :
    List Event × Result × Db :=
  let e1 := format_log "client_request" (some "POST") (some urlPath) none
    (some (JVal.obj [("username", JVal.str username)])) none none
  let stored := dbGet db username
  if stored.getD "" == "" || !(stored == some password) then
    let rp := JVal.obj [("detail", JVal.str "Invalid username or password")]
    let e2 := format_log "server_response" (some "POST") (some urlPath)
      (some 401) none (some rp) none
    ([e1, e2], Result.httpError 401 "Invalid username or password", db)
  else
    let rp := JVal.obj [("status", JVal.str "success"),
      ("message", JVal.str ("User \x27" ++ username ++ "\x27 logged in"))]
    let e2 := format_log "server_response" (some "POST") (some urlPath)
      (some 200) none (some rp) none
    ([e1, e2], Result.ok rp, db)

/-- `get_user_info` (src/main.py lines 191-210). -/
def get_user_info (db : Db) (username urlPath : String) :
    List Event × Result × Db :=
  let e1 := format_log "client_request" (some "GET") (some urlPath) none
    none none none
  if (dbGet db username).isNone then
    let rp := JVal.obj [("detail", JVal.str "User not found")]
    let e2 := format_log "server_response" (some "GET") (some urlPath)
      (some 404) none (some rp) none
    ([e1, e2], Result.httpError 404 "User not found", db)
  else
    let rp := JVal.obj [("username", JVal.str username)]
    let e2 := format_log "server_response" (some "GET") (some urlPath)
      (some 200) none (some rp) none
    ([e1, e2], Result.ok rp, db)

/-- `update_user_password` (src/main.py lines 212-231). -/
def update_user_password (db : Db) (username newPassword urlPath : String) :
    List Event × Result × Db :=
  let e1 := format_log "client_request" (some "PUT") (some urlPath) none
    (some (JVal.obj [("username", JVal.str username)])) none none
  if (dbGet db username).isNone then
    let rp := JVal.obj [("detail", JVal.str "User not found")]
    let e2 := format_log "server_response" (some "PUT") (some urlPath)
      (some 404) none (some rp) none
    ([e1, e2], Result.httpError 404 "User not found", db)
  else
    let rp := JVal.obj [("status", JVal.str "success"),
      ("message", JVal.str ("Password for user \x27" ++ username ++ "\x27 updated"))]
    let e2 := format_log "server_response" (some "PUT") (some urlPath)
      (some 200) none (some rp) none
    ([e1, e2], Result.ok rp, dbSet db username newPassword)

/-- `generate_llm_response` (src/main.py lines 233-318).  The single outbound
peer call's outcome is the `peer` oracle.  On a completed response the body is
parsed once for the `ollama_response` event (raw text wrapped as
`{"raw_response": ...}` when not JSON), then `raise_for_status()` classifies
non-2xx as `httpx.HTTPStatusError` (502 path); on 2xx the second
`response.json()` and the `ollama_data.get("response", ...)` attribute access
can still raise (non-JSON body, or JSON body that is not an object), landing
in the generic `except Exception` handler (500 path). -/
def generate_llm_response (db : Db) (username prompt urlPath : String)
    (peer : PeerOutcome) : List Event × Result × Db :=
  let crp := JVal.obj [("username", JVal.str username),
    ("prompt", JVal.str prompt)]
  let e1 := format_log "client_request" (some "POST") (some urlPath) none
    (some crp) none none
  if (dbGet db username).isNone then
    let rp := JVal.obj
      [("detail", JVal.str "User not found or not authenticated")]
    let e2 := format_log "server_response" (some "POST") (some urlPath)
      (some 401) none (some rp) none
    ([e1, e2], Result.httpError 401 "User not found or not authenticated", db)
  else
    let op := JVal.obj [("model", JVal.str "llama2"),
      ("prompt", JVal.str prompt), ("stream", JVal.bool false)]
    let e2 := format_log "ollama_request" (some "POST") (some ollamaUrl) none
      (some op) none none
    match peer with
    | PeerOutcome.transportError msg =>
      let errDetail := "Error requesting Ollama: " ++ msg
      let e3 := format_log "ollama_error" none (some ollamaUrl) none none none
        (some errDetail)
      let e4 := format_log "server_response" (some "POST") (some urlPath)
        (some 503) none
        (some (JVal.obj [("detail", JVal.str "LLM service unavailable")])) none
      ([e1, e2, e3, e4], Result.httpError 503 "LLM service unavailable", db)
    | PeerOutcome.response st body =>
      let orp := match body with
        | PeerBody.json j => j
        | PeerBody.nonJson raw => JVal.obj [("raw_response", JVal.str raw)]
      let e3 := format_log "ollama_response" none (some ollamaUrl) (some st)
        none (some orp) none
      if raise_for_status_ok st then
        match body with
        | PeerBody.json (JVal.obj fields) =>
          let generated :=
            ((fields.find? (fun p => p.1 == "response")).map
              (fun p => p.2)).getD (JVal.str ollamaFallback)
          let frp := JVal.obj [("text", generated)]
          let e4 := format_log "server_response" (some "POST") (some urlPath)
            (some 200) none (some frp) none
          ([e1, e2, e3, e4], Result.ok frp, db)
        | PeerBody.json _ =>
          internal_error_tail e1 e2 e3 urlPath "AttributeError" db
        | PeerBody.nonJson _ =>
          internal_error_tail e1 e2 e3 urlPath "JSONDecodeError" db
      else
        let e4 := format_log "server_response" (some "POST") (some urlPath)
          (some 502) none
          (some (JVal.obj [("detail", JVal.str "Error from LLM service")])) none
        ([e1, e2, e3, e4], Result.httpError 502 "Error from LLM service", db)

/-- One pipeline invocation: which endpoint was called, with which inputs
(`urlPath` is the `str(request.url.path)` the framework supplies), and for the
LLM endpoint the outcome of the peer call. -/
inductive PipelineCall : Type where
  | register : String → String → String → PipelineCall
  | login : String → String → String → PipelineCall
  | fetchUser : String → String → PipelineCall
  | updateUser : String → String → String → PipelineCall
  | llmGenerate : String → String → String → PeerOutcome → PipelineCall

/-- Run one pipeline invocation against a db state, yielding the emitted
events (in order), the result, and the new db state. -/
def runPipeline (db : Db) : PipelineCall → List Event × Result × Db
  | PipelineCall.register u p url => register_user db u p url
  | PipelineCall.login u p url => login_user db u p url
  | PipelineCall.fetchUser u url => get_user_info db u url
  | PipelineCall.updateUser u p url => update_user_password db u p url
  | PipelineCall.llmGenerate u prompt url peer =>
      generate_llm_response db u prompt url peer

/-- Is this tag a terminal event tag in the sense of claim C2
(`server_response` or an error-classified event)? -/
def claimTerminal (t : String) : Bool :=
  t == "server_response" || t == "server_error" || t == "ollama_error"

/-- Body of the claim-C2 grammar: zero or more peer-event pairs
(an `ollama_request` followed by an `ollama_response` or `ollama_error`),
then exactly one terminal event. -/
def claimBody : List String → Bool
  | [t] => claimTerminal t
  | "ollama_request" :: t :: rest =>
      (t == "ollama_response" || t == "ollama_error") && claimBody rest
  | _ => false

/-- The event-tag grammar asserted by claim C2: `client_request` first, then
zero or more peer-event pairs, then exactly one terminal event. -/
def claimGrammar : List String → Bool
  | "client_request" :: rest => claimBody rest
  | _ => false

/-- Does the peer-call outcome of this invocation echo a JSON body that is
itself free of `password` keys?  (Trivially true for the non-LLM endpoints
and for non-JSON or transport-failed peer outcomes.) -/
def peerEchoClean : PipelineCall → Bool
  | PipelineCall.llmGenerate _ _ _ (PeerOutcome.response _ (PeerBody.json j)) =>
      !(JVal.hasKey "password" j)
  | _ => true

/-! ## Helper lemmas -/

theorem filter_ok_err_length {ε : Type} (l : List (Except ε Unit)) :
    (l.filter exceptOk).length + (l.filter exceptErr).length = l.length := by
  induction l with
  | nil => rfl
  | cons r t ih =>
    cases r <;> simp [List.filter, exceptOk, exceptErr] <;> omega

/-! ## Claims about the broadcast hub -/

/-- Claim C1: for every broadcast over a registry of N observers in which
exactly K < N per-observer deliveries fail, each of the other N−K observers
still receives the serialized event (its delivery attempt is made and its own
outcome is exactly its `send` outcome, independent of the failures), and the
broadcast call completes without raising (`Except.ok`) to the request path. -/
theorem broadcast_failure_isolation {ο μ ε : Type} (m : ConnectionManager ο)
    (message : μ) (send : ο → μ → Except ε Unit) (K : Nat)
    (hK : ((m.active_connections.map (fun c => send c message)).filter
      exceptErr).length = K)
    (hKN : K < m.active_connections.length) :
    m.broadcast message send
      = Except.ok (m.active_connections.map (fun c => send c message), m)
    ∧ ((m.active_connections.map (fun c => send c message)).filter
        exceptOk).length = m.active_connections.length - K := by
  constructor
  · simp [ConnectionManager.broadcast, gather]
  · have h := filter_ok_err_length
      (m.active_connections.map (fun c => send c message))
    rw [hK] at h
    have hlen : (m.active_connections.map (fun c => send c message)).length
        = m.active_connections.length := List.length_map _ _
    omega

/-- Concrete delivery-outcome oracle for the C1 witness: connection 0's send
raises, connection 1's send succeeds. -/
def sendW : Nat → String → Except String Unit :=
  fun c _ => if c == 0 then Except.error "boom" else Except.ok ()

/-- Witness for C1 at a two-observer registry with exactly one failure. -/
theorem broadcast_failure_isolation_witness :
    (ConnectionManager.mk [0, 1]).broadcast "evt" sendW
      = Except.ok ([0, 1].map (fun c => sendW c "evt"), ConnectionManager.mk [0, 1])
    ∧ (([0, 1].map (fun c => sendW c "evt")).filter exceptOk).length
        = ([0, 1] : List Nat).length - 1 :=
  broadcast_failure_isolation (ConnectionManager.mk [0, 1]) "evt" sendW 1
    (by decide) (by decide)

/-- Claim C5: the broadcast operation never mutates the observer registry —
for every registry, message, and pattern of per-observer delivery outcomes,
the registry after the call equals the registry before the call (the
commented-out disconnect-on-error is not taken; removal happens only through
`ConnectionManager.disconnect` from the read path). -/
theorem broadcast_preserves_registry {ο μ ε : Type} (m : ConnectionManager ο)
    (message : μ) (send : ο → μ → Except ε Unit) :
    (m.broadcast message send).map (fun r => r.2) = Except.ok m := by
  simp [ConnectionManager.broadcast, gather, Except.map]

/-- Claim C6: calling `disconnect` on an observer that is not (or no longer)
in the registry is a no-op that never raises (the operation is total), and on
a duplicate-free registry — the only kind reachable, since `connect` appends
one freshly-accepted handle per connection — calling `disconnect` twice with
the same observer leaves the registry exactly as calling it once. -/
theorem disconnect_noop_idempotent {ο : Type} [DecidableEq ο]
    (m : ConnectionManager ο) (w : ο) :
    (w ∉ m.active_connections → m.disconnect w = m)
    ∧ (m.active_connections.Nodup →
        (m.disconnect w).disconnect w = m.disconnect w) := by
  constructor
  · intro h
    simp [ConnectionManager.disconnect, h]
  · intro hnd
    by_cases hw : w ∈ m.active_connections
    · have h1 : m.disconnect w
          = { active_connections := m.active_connections.erase w } := by
        simp [ConnectionManager.disconnect, hw]
      have h2 : w ∉ m.active_connections.erase w := by
        intro hc
        exact absurd rfl ((hnd.mem_erase_iff.mp hc).1)
      rw [h1]
      simp [ConnectionManager.disconnect, h2]
    · have h1 : m.disconnect w = m := by
        simp [ConnectionManager.disconnect, hw]
      rw [h1, h1]

/-- Witness for C6 on a concrete registry. -/
theorem disconnect_noop_idempotent_witness :
    (ConnectionManager.mk [0]).disconnect 1 = ConnectionManager.mk [0]
    ∧ ((ConnectionManager.mk [0]).disconnect 1).disconnect 1
        = (ConnectionManager.mk [0]).disconnect 1 :=
  ⟨(disconnect_noop_idempotent (ConnectionManager.mk [0]) 1).1 (by decide),
   (disconnect_noop_idempotent (ConnectionManager.mk [0]) 1).2 (by decide)⟩

/-! ## Claims about the event formatter -/

/-- Claim C10: the formatter drops every present-but-falsy optional value —
an empty-string `method`, `url`, or `detail`, a `status` of 0, and any falsy
payload (empty dict, empty list, and the other Python-falsy JSON values) are
omitted exactly as if the field had not been supplied, so supplying a falsy
value and omitting the field construct identical events. -/
theorem format_log_drops_falsy (s : String) (m u d : Option String)
    (st : Option Int) (rp sp : Option JVal) :
    format_log s (some "") u st rp sp d = format_log s none u st rp sp d
    ∧ format_log s m (some "") st rp sp d = format_log s m none st rp sp d
    ∧ (∀ n : Int, n = 0 →
        format_log s m u (some n) rp sp d = format_log s m u none rp sp d)
    ∧ (∀ v : JVal, v.truthy = false →
        format_log s m u st (some v) sp d = format_log s m u st none sp d)
    ∧ (∀ v : JVal, v.truthy = false →
        format_log s m u st rp (some v) d = format_log s m u st rp none d)
    ∧ format_log s m u st rp sp (some "")
        = format_log s m u st rp sp none := by
  refine ⟨?_, ?_, ?_, ?_, ?_, ?_⟩
  · simp [format_log, Option.filter]
  · simp [format_log, Option.filter]
  · intro n hn
    subst hn
    simp [format_log, Option.filter]
  · intro v hv
    simp [format_log, Option.filter, hv]
  · intro v hv
    simp [format_log, Option.filter, hv]
  · simp [format_log, Option.filter]

/-- Witness for C10: a falsy value of each kind, against the omitted field. -/
theorem format_log_drops_falsy_witness :
    format_log "s" (some "") none none none none none
      = format_log "s" none none none none none none
    ∧ format_log "s" none none (some 0) none none none
      = format_log "s" none none none none none none
    ∧ format_log "s" none none none (some (JVal.obj [])) none none
      = format_log "s" none none none none none none
    ∧ format_log "s" none none none none (some (JVal.arr [])) none
      = format_log "s" none none none none none none :=
  ⟨(format_log_drops_falsy "s" none none none none none none).1,
   (format_log_drops_falsy "s" none none none none none none).2.2.1 0 rfl,
   (format_log_drops_falsy "s" none none none none none none).2.2.2.1
     (JVal.obj []) rfl,
   (format_log_drops_falsy "s" none none none none none none).2.2.2.2.1
     (JVal.arr []) rfl⟩

/-- Characterization of the keys present in an event's serialized form. -/
theorem mem_keys_iff (e : Event) (x : String) :
    x ∈ e.keys ↔
      x = "source"
      ∨ (e.method.isSome = true ∧ x = "method")
      ∨ (e.url.isSome = true ∧ x = "url")
      ∨ (e.status.isSome = true ∧ x = "status")
      ∨ (e.request_payload.isSome = true ∧ x = "request_payload")
      ∨ (e.response_payload.isSome = true ∧ x = "response_payload")
      ∨ (e.detail.isSome = true ∧ x = "detail") := by
  rcases e with ⟨s, m, u, st, rp, sp, d⟩
  cases m <;> cases u <;> cases st <;> cases rp <;> cases sp <;> cases d <;>
    simp [Event.keys, Event.toObj, optEntry]

/-- Claim C4: every optional field not supplied at construction is entirely
absent from the serialized event (no key for it, hence no null placeholder),
`source` is always present, and a `timestamp` entry is always part of the
message `log_and_broadcast` hands to `broadcast`. -/
theorem format_log_omits_absent_fields (s : String) (m u d : Option String)
    (st : Option Int) (rp sp : Option JVal) (ts : String) :
    "source" ∈ (format_log s m u st rp sp d).keys
    ∧ (m = none → "method" ∉ (format_log s m u st rp sp d).keys)
    ∧ (u = none → "url" ∉ (format_log s m u st rp sp d).keys)
    ∧ (st = none → "status" ∉ (format_log s m u st rp sp d).keys)
    ∧ (rp = none → "request_payload" ∉ (format_log s m u st rp sp d).keys)
    ∧ (sp = none → "response_payload" ∉ (format_log s m u st rp sp d).keys)
    ∧ (d = none → "detail" ∉ (format_log s m u st rp sp d).keys)
    ∧ "timestamp" ∈ (log_message ts (format_log s m u st rp sp d)).map Prod.fst := by
  refine ⟨?_, ?_, ?_, ?_, ?_, ?_, ?_, ?_⟩
  · exact (mem_keys_iff _ _).mpr (Or.inl rfl)
  · intro h
    subst h
    rw [mem_keys_iff]
    simp [format_log, Option.filter]
  · intro h
    subst h
    rw [mem_keys_iff]
    simp [format_log, Option.filter]
  · intro h
    subst h
    rw [mem_keys_iff]
    simp [format_log, Option.filter]
  · intro h
    subst h
    rw [mem_keys_iff]
    simp [format_log, Option.filter]
  · intro h
    subst h
    rw [mem_keys_iff]
    simp [format_log, Option.filter]
  · intro h
    subst h
    rw [mem_keys_iff]
    simp [format_log, Option.filter]
  · simp [log_message]

/-- Witness for C4 at the all-absent construction. -/
theorem format_log_omits_absent_fields_witness :
    "source" ∈ (format_log "client_request" none none none none none none).keys
    ∧ "method" ∉ (format_log "client_request" none none none none none none).keys
    ∧ "url" ∉ (format_log "client_request" none none none none none none).keys
    ∧ "status" ∉ (format_log "client_request" none none none none none none).keys
    ∧ "request_payload"
        ∉ (format_log "client_request" none none none none none none).keys
    ∧ "response_payload"
        ∉ (format_log "client_request" none none none none none none).keys
    ∧ "detail" ∉ (format_log "client_request" none none none none none none).keys
    ∧ "timestamp" ∈ (log_message "2024-01-01T00:00:00"
        (format_log "client_request" none none none none none none)).map Prod.fst := by
  have h := format_log_omits_absent_fields "client_request" none none none
    none none none "2024-01-01T00:00:00"
  exact ⟨h.1, h.2.1 rfl, h.2.2.1 rfl, h.2.2.2.1 rfl, h.2.2.2.2.1 rfl,
    h.2.2.2.2.2.1 rfl, h.2.2.2.2.2.2.1 rfl, h.2.2.2.2.2.2.2⟩

/-! ## Claims about the request pipeline -/

/-- Claim C7: when the username is already registered, a second register call
(with any password) fails with status 400 and detail
"Username already registered", the emitted events are exactly a
`client_request` followed by a `server_response` carrying status 400 and that
detail as its response payload, and the user directory is left unchanged. -/
theorem register_duplicate_username (db : Db) (u p url : String)
    (h : (dbGet db u).isSome = true) :
    (runPipeline db (PipelineCall.register u p url)).2.1
      = Result.httpError 400 "Username already registered"
    ∧ (runPipeline db (PipelineCall.register u p url)).2.2 = db
    ∧ (runPipeline db (PipelineCall.register u p url)).1.map Event.source
      = ["client_request", "server_response"]
    ∧ ((runPipeline db (PipelineCall.register u p url)).1.getD 1 emptyEvent).status
      = some 400
    ∧ ((runPipeline db (PipelineCall.register u p url)).1.getD 1 emptyEvent).response_payload
      = some (JVal.obj [("detail", JVal.str "Username already registered")]) := by
  simp [runPipeline, register_user, h, format_log, JVal.truthy, Option.filter]

/-- Witness for C7: re-registering `alice` over a directory that has her. -/
theorem register_duplicate_username_witness :
    (runPipeline [("alice", "pw")] (PipelineCall.register "alice" "other" "/register/")).2.1
      = Result.httpError 400 "Username already registered"
    ∧ (runPipeline [("alice", "pw")] (PipelineCall.register "alice" "other" "/register/")).2.2
      = [("alice", "pw")]
    ∧ (runPipeline [("alice", "pw")] (PipelineCall.register "alice" "other" "/register/")).1.map Event.source
      = ["client_request", "server_response"]
    ∧ ((runPipeline [("alice", "pw")] (PipelineCall.register "alice" "other" "/register/")).1.getD 1 emptyEvent).status
      = some 400
    ∧ ((runPipeline [("alice", "pw")] (PipelineCall.register "alice" "other" "/register/")).1.getD 1 emptyEvent).response_payload
      = some (JVal.obj [("detail", JVal.str "Username already registered")]) :=
  register_duplicate_username [("alice", "pw")] "alice" "other" "/register/"
    (by decide)

/-- Claim C8: when a registered user's LLM-generate call fails at the
transport level (`httpx.RequestError`: connection refused or timeout), the
caller receives status 503 with detail "LLM service unavailable", the emitted
event tags are exactly `client_request`, `ollama_request`, `ollama_error`,
`server_response` — so the `ollama_error` precedes the terminal event, no
`ollama_response` (partial peer response) is delivered, and the single
`ollama_request` shows the call is not retried — and the terminal event
carries status 503 with that detail. -/
theorem llm_transport_error (db : Db) (u prompt url msg : String)
    (h : (dbGet db u).isSome = true) :
    (runPipeline db (PipelineCall.llmGenerate u prompt url
        (PeerOutcome.transportError msg))).2.1
      = Result.httpError 503 "LLM service unavailable"
    ∧ (runPipeline db (PipelineCall.llmGenerate u prompt url
        (PeerOutcome.transportError msg))).1.map Event.source
      = ["client_request", "ollama_request", "ollama_error", "server_response"]
    ∧ ((runPipeline db (PipelineCall.llmGenerate u prompt url
        (PeerOutcome.transportError msg))).1.getD 3 emptyEvent).status
      = some 503
    ∧ ((runPipeline db (PipelineCall.llmGenerate u prompt url
        (PeerOutcome.transportError msg))).1.getD 3 emptyEvent).response_payload
      = some (JVal.obj [("detail", JVal.str "LLM service unavailable")])
    ∧ (runPipeline db (PipelineCall.llmGenerate u prompt url
        (PeerOutcome.transportError msg))).2.2 = db := by
  have hn : (dbGet db u).isNone = false := by
    cases hd : dbGet db u with
    | none => rw [hd] at h; cases h
    | some v => rfl
  simp [runPipeline, generate_llm_response, hn, format_log, JVal.truthy,
    Option.filter]

/-- Witness for C8: a registered user hitting a connection-refused peer. -/
theorem llm_transport_error_witness :
    (runPipeline [("alice", "pw")] (PipelineCall.llmGenerate "alice" "hi"
        "/llm/generate" (PeerOutcome.transportError "timeout"))).2.1
      = Result.httpError 503 "LLM service unavailable"
    ∧ (runPipeline [("alice", "pw")] (PipelineCall.llmGenerate "alice" "hi"
        "/llm/generate" (PeerOutcome.transportError "timeout"))).1.map Event.source
      = ["client_request", "ollama_request", "ollama_error", "server_response"]
    ∧ ((runPipeline [("alice", "pw")] (PipelineCall.llmGenerate "alice" "hi"
        "/llm/generate" (PeerOutcome.transportError "timeout"))).1.getD 3 emptyEvent).status
      = some 503
    ∧ ((runPipeline [("alice", "pw")] (PipelineCall.llmGenerate "alice" "hi"
        "/llm/generate" (PeerOutcome.transportError "timeout"))).1.getD 3 emptyEvent).response_payload
      = some (JVal.obj [("detail", JVal.str "LLM service unavailable")])
    ∧ (runPipeline [("alice", "pw")] (PipelineCall.llmGenerate "alice" "hi"
        "/llm/generate" (PeerOutcome.transportError "timeout"))).2.2
      = [("alice", "pw")] :=
  llm_transport_error [("alice", "pw")] "alice" "hi" "/llm/generate" "timeout"
    (by decide)

/-- Claim C9: when the peer returns a 2xx JSON object body without a
`response` field, the pipeline does not fail: the caller receives the 200
result whose text is the fixed deterministic fallback message, and the
terminal `server_response` event carries status 200 with that payload. -/
theorem llm_missing_response_field (db : Db) (u prompt url : String)
    (st : Int) (fields : List (String × JVal))
    (h : (dbGet db u).isSome = true) (h2 : 200 ≤ st) (h3 : st < 300)
    (hmiss : fields.find? (fun p => p.1 == "response") = none) :
    (runPipeline db (PipelineCall.llmGenerate u prompt url
        (PeerOutcome.response st (PeerBody.json (JVal.obj fields))))).2.1
      = Result.ok (JVal.obj [("text", JVal.str ollamaFallback)])
    ∧ (runPipeline db (PipelineCall.llmGenerate u prompt url
        (PeerOutcome.response st (PeerBody.json (JVal.obj fields))))).1.map Event.source
      = ["client_request", "ollama_request", "ollama_response", "server_response"]
    ∧ ((runPipeline db (PipelineCall.llmGenerate u prompt url
        (PeerOutcome.response st (PeerBody.json (JVal.obj fields))))).1.getD 3 emptyEvent).status
      = some 200
    ∧ ((runPipeline db (PipelineCall.llmGenerate u prompt url
        (PeerOutcome.response st (PeerBody.json (JVal.obj fields))))).1.getD 3 emptyEvent).response_payload
      = some (JVal.obj [("text", JVal.str ollamaFallback)]) := by
  have hn : (dbGet db u).isNone = false := by
    cases hd : dbGet db u with
    | none => rw [hd] at h; cases h
    | some v => rfl
  have hrs : raise_for_status_ok st = true := by
    simp [raise_for_status_ok]
    omega
  simp [runPipeline, generate_llm_response, hn, hrs, hmiss, format_log,
    JVal.truthy, Option.filter]

/-- Witness for C9: peer answers 200 with `{"model": "llama2"}` (no
`response` field). -/
theorem llm_missing_response_field_witness :
    (runPipeline [("alice", "pw")] (PipelineCall.llmGenerate "alice" "hi"
        "/llm/generate" (PeerOutcome.response 200
          (PeerBody.json (JVal.obj [("model", JVal.str "llama2")]))))).2.1
      = Result.ok (JVal.obj [("text", JVal.str ollamaFallback)])
    ∧ (runPipeline [("alice", "pw")] (PipelineCall.llmGenerate "alice" "hi"
        "/llm/generate" (PeerOutcome.response 200
          (PeerBody.json (JVal.obj [("model", JVal.str "llama2")]))))).1.map Event.source
      = ["client_request", "ollama_request", "ollama_response", "server_response"]
    ∧ ((runPipeline [("alice", "pw")] (PipelineCall.llmGenerate "alice" "hi"
        "/llm/generate" (PeerOutcome.response 200
          (PeerBody.json (JVal.obj [("model", JVal.str "llama2")]))))).1.getD 3 emptyEvent).status
      = some 200
    ∧ ((runPipeline [("alice", "pw")] (PipelineCall.llmGenerate "alice" "hi"
        "/llm/generate" (PeerOutcome.response 200
          (PeerBody.json (JVal.obj [("model", JVal.str "llama2")]))))).1.getD 3 emptyEvent).response_payload
      = some (JVal.obj [("text", JVal.str ollamaFallback)]) :=
  llm_missing_response_field [("alice", "pw")] "alice" "hi" "/llm/generate"
    200 [("model", JVal.str "llama2")] (by decide) (by decide) (by decide)
    rfl

/-- Counterexample to claim C2 as stated: a registered user's LLM-generate
call where the peer answers 200 with a non-JSON body.  The first
`response.json()` failure is caught (raw text logged in `ollama_response`),
`raise_for_status()` passes, and the second `response.json()` raises into the
generic handler, which emits a `server_error` event *and then* the terminal
`server_response` — so the tag sequence has two events after the peer pair
and does not match the claimed grammar of exactly one terminal event. -/
theorem pipeline_tag_grammar_cex :
    claimGrammar ((runPipeline [("alice", "pw")]
      (PipelineCall.llmGenerate "alice" "hi" "/llm/generate"
        (PeerOutcome.response 200 (PeerBody.nonJson "oops")))).1.map
          Event.source) = false := by
  decide

/-- Claim C2 (amended): for every endpoint, input, and db state, the emitted
`source`-tag sequence is exactly one of: `client_request` then the terminal
`server_response`; or `client_request`, one peer pair (`ollama_request` then
`ollama_error` or `ollama_response`), then the terminal `server_response`;
or — only on the unexpected-internal-error path — `client_request`, the peer
pair, then a `server_error` event immediately followed by the terminal
`server_response`.  In particular events are never reordered and the terminal
event is never missing. -/
theorem pipeline_tag_shapes (db : Db) (call : PipelineCall) :
    (runPipeline db call).1.map Event.source ∈
      ([["client_request", "server_response"],
        ["client_request", "ollama_request", "ollama_error", "server_response"],
        ["client_request", "ollama_request", "ollama_response", "server_response"],
        ["client_request", "ollama_request", "ollama_response", "server_error",
         "server_response"]] : List (List String)) := by
  cases call with
  | register u p url =>
    cases h : (dbGet db u).isSome <;>
      simp [runPipeline, register_user, h, format_log]
  | login u p url =>
    cases h : ((dbGet db u).getD "" == "" || !(dbGet db u == some p)) <;>
      simp [runPipeline, login_user, h, format_log]
  | fetchUser u url =>
    cases h : (dbGet db u).isNone <;>
      simp [runPipeline, get_user_info, h, format_log]
  | updateUser u p url =>
    cases h : (dbGet db u).isNone <;>
      simp [runPipeline, update_user_password, h, format_log]
  | llmGenerate u prompt url peer =>
    cases h : (dbGet db u).isNone with
    | true => simp [runPipeline, generate_llm_response, h, format_log]
    | false =>
      cases peer with
      | transportError msg =>
        simp [runPipeline, generate_llm_response, h, format_log]
      | response st body =>
        cases hrs : raise_for_status_ok st with
        | false =>
          cases body <;>
            simp [runPipeline, generate_llm_response, h, hrs, format_log]
        | true =>
          cases body with
          | nonJson raw =>
            simp [runPipeline, generate_llm_response, h, hrs, format_log,
              internal_error_tail]
          | json j =>
            cases j <;>
              simp [runPipeline, generate_llm_response, h, hrs, format_log,
                internal_error_tail]

/-- Counterexample to claim C3 as stated: both of its parts fail on the code
at concrete inputs.  First, the "equivalently" formulation fails for the
login endpoint: with `alice` stored with password `"a"`, logging in with
password `"a"` versus `"b"` — inputs differing only in the password value —
emits different events (a 200 success versus a 401 failure), because login
must compare the submitted password against the stored one.  Second, the
unconditional no-password-field part fails at the LLM endpoint: when the
peer answers 200 with the JSON body containing a `password` key, the
`ollama_response` event (src/main.py lines 267-276) echoes that body
verbatim, so an emitted event carries a password field. -/
theorem password_visible_in_events_cex :
    ¬ ((runPipeline [("alice", "a")] (PipelineCall.login "alice" "a" "/login/")).1
        = (runPipeline [("alice", "a")] (PipelineCall.login "alice" "b" "/login/")).1)
    ∧ ((runPipeline [("alice", "a")] (PipelineCall.llmGenerate "alice" "hi"
          "/llm/generate" (PeerOutcome.response 200 (PeerBody.json
            (JVal.obj [("password", JVal.str "x")]))))).1.getD 2
        emptyEvent).hasPasswordKey = true := by
  constructor
  · intro h
    have h2 := congrArg (fun l => l.map Event.status) h
    exact absurd h2 (by decide)
  · decide

/-- Every entry found in a field list free of key `k` (at any depth) has a
value free of key `k`. -/
theorem hasKey_find_of_clean (k x : String) (fields : List (String × JVal))
    (h : hasKeyInFields k fields = false) (p : String × JVal)
    (hp : fields.find? (fun q => q.1 == x) = some p) :
    JVal.hasKey k p.2 = false := by
  induction fields with
  | nil => cases hp
  | cons f rest ih =>
    rcases f with ⟨k2, v⟩
    have h' : (k2 ≠ k ∧ JVal.hasKey k v = false)
        ∧ hasKeyInFields k rest = false := by
      rw [hasKeyInFields] at h
      simpa [Bool.or_eq_false_iff] using h
    rw [List.find?] at hp
    cases hx : (k2 == x) with
    | true =>
      rw [hx] at hp
      simp at hp
      rw [← hp]
      exact h'.1.2
    | false =>
      rw [hx] at hp
      simp at hp
      exact ih h'.2 hp

theorem hasKey_str (k s : String) : JVal.hasKey k (JVal.str s) = false := by
  simp [JVal.hasKey]

theorem hasKey_bool (k : String) (b : Bool) :
    JVal.hasKey k (JVal.bool b) = false := by
  simp [JVal.hasKey]

theorem hasKey_obj (k : String) (fs : List (String × JVal)) :
    JVal.hasKey k (JVal.obj fs) = hasKeyInFields k fs := by
  simp [JVal.hasKey]

theorem hasKeyInFields_nil (k : String) : hasKeyInFields k [] = false := by
  simp [hasKeyInFields]

theorem hasKeyInFields_cons (k k2 : String) (v : JVal)
    (rest : List (String × JVal)) :
    hasKeyInFields k ((k2, v) :: rest)
      = (k2 == k || JVal.hasKey k v || hasKeyInFields k rest) := by
  simp [hasKeyInFields]

/-- Claim C3 (amended): no event emitted by any endpoint carries a `password`
key in any payload at any nesting depth, provided (for the LLM endpoint only)
the peer's echoed JSON body is itself free of such a key — the
`ollama_response` event echoes the peer body verbatim; and for the register
and password-update endpoints, running the pipeline on inputs differing only
in the password value emits identical events.  (For login the second part
fails — see the counterexample — because the outcome depends on comparing
the submitted password with the stored one; still no credential value ever
appears as an event field.) -/
theorem events_credential_free :
    (∀ (db : Db) (call : PipelineCall), peerEchoClean call = true →
      ((runPipeline db call).1.all (fun e => !(e.hasPasswordKey))) = true)
    ∧ (∀ (db : Db) (u p q url : String),
        (runPipeline db (PipelineCall.register u p url)).1
          = (runPipeline db (PipelineCall.register u q url)).1)
    ∧ (∀ (db : Db) (u p q url : String),
        (runPipeline db (PipelineCall.updateUser u p url)).1
          = (runPipeline db (PipelineCall.updateUser u q url)).1) := by
  refine ⟨?_, ?_, ?_⟩
  · intro db call hclean
    cases call with
    | register u p url =>
      cases h : (dbGet db u).isSome <;>
        simp [runPipeline, register_user, h, format_log, Event.hasPasswordKey,
          Option.filter, JVal.truthy, hasKey_str, hasKey_obj,
          hasKeyInFields_cons, hasKeyInFields_nil]
    | login u p url =>
      cases h : ((dbGet db u).getD "" == "" || !(dbGet db u == some p)) <;>
        simp [runPipeline, login_user, h, format_log, Event.hasPasswordKey,
          Option.filter, JVal.truthy, hasKey_str, hasKey_obj,
          hasKeyInFields_cons, hasKeyInFields_nil]
    | fetchUser u url =>
      cases h : (dbGet db u).isNone <;>
        simp [runPipeline, get_user_info, h, format_log, Event.hasPasswordKey,
          Option.filter, JVal.truthy, hasKey_str, hasKey_obj,
          hasKeyInFields_cons, hasKeyInFields_nil]
    | updateUser u p url =>
      cases h : (dbGet db u).isNone <;>
        simp [runPipeline, update_user_password, h, format_log,
          Event.hasPasswordKey, Option.filter, JVal.truthy, hasKey_str,
          hasKey_obj, hasKeyInFields_cons, hasKeyInFields_nil]
    | llmGenerate u prompt url peer =>
      cases h : (dbGet db u).isNone with
      | true =>
        simp [runPipeline, generate_llm_response, h, format_log,
          Event.hasPasswordKey, Option.filter, JVal.truthy, hasKey_str,
          hasKey_obj, hasKeyInFields_cons, hasKeyInFields_nil]
      | false =>
        cases peer with
        | transportError msg =>
          simp [runPipeline, generate_llm_response, h, format_log,
            Event.hasPasswordKey, Option.filter, JVal.truthy, hasKey_str,
            hasKey_obj, hasKey_bool, hasKeyInFields_cons, hasKeyInFields_nil]
        | response st body =>
          cases body with
          | nonJson raw =>
            cases hrs : raise_for_status_ok st <;>
              simp [runPipeline, generate_llm_response, h, hrs, format_log,
                internal_error_tail, Event.hasPasswordKey, Option.filter,
                JVal.truthy, hasKey_str, hasKey_obj, hasKey_bool,
                hasKeyInFields_cons, hasKeyInFields_nil]
          | json j =>
            have hj : JVal.hasKey "password" j = false := by
              have := hclean
              simp [peerEchoClean] at this
              exact this
            cases hrs : raise_for_status_ok st with
            | false =>
              simp [runPipeline, generate_llm_response, h, hrs, format_log,
                  Event.hasPasswordKey, Option.filter, JVal.truthy, hj,
                  hasKey_str, hasKey_obj, hasKey_bool, hasKeyInFields_cons,
                  hasKeyInFields_nil]
              split
              · rename_i v heq
                split at heq <;> cases heq <;> try exact hj
              · rfl
            | true =>
              cases j with
              | obj fields =>
                have hkf : hasKeyInFields "password" fields = false := by
                  rw [hasKey_obj] at hj
                  exact hj
                cases hf : fields.find? (fun q => q.1 == "response") with
                | none =>
                  simp [runPipeline, generate_llm_response, h, hrs, hf,
                      format_log, Event.hasPasswordKey, Option.filter,
                      JVal.truthy, hkf, hasKey_str, hasKey_obj, hasKey_bool,
                      hasKeyInFields_cons, hasKeyInFields_nil]
                  split
                  · rename_i v heq
                    split at heq <;> cases heq <;> try exact hj
                  · rfl
                | some pr =>
                  have hpv : JVal.hasKey "password" pr.2 = false :=
                    hasKey_find_of_clean "password" "response" fields hkf pr hf
                  simp [runPipeline, generate_llm_response, h, hrs, hf,
                      format_log, Event.hasPasswordKey, Option.filter,
                      JVal.truthy, hkf, hpv, hasKey_str, hasKey_obj,
                      hasKey_bool, hasKeyInFields_cons, hasKeyInFields_nil]
                  split
                  · rename_i v heq
                    split at heq <;> cases heq <;> try exact hj
                  · rfl
              | str s =>
                simp [runPipeline, generate_llm_response, h, hrs, format_log,
                    internal_error_tail, Event.hasPasswordKey, Option.filter,
                    JVal.truthy, hj, hasKey_str, hasKey_obj, hasKey_bool,
                    hasKeyInFields_cons, hasKeyInFields_nil]
                split
                · rename_i v heq
                  split at heq <;> cases heq <;> try exact hj
                · rfl
              | num n =>
                simp [runPipeline, generate_llm_response, h, hrs, format_log,
                    internal_error_tail, Event.hasPasswordKey, Option.filter,
                    JVal.truthy, hj, hasKey_str, hasKey_obj, hasKey_bool,
                    hasKeyInFields_cons, hasKeyInFields_nil]
                split
                · rename_i v heq
                  split at heq <;> cases heq <;> try exact hj
                · rfl
              | bool b =>
                simp [runPipeline, generate_llm_response, h, hrs, format_log,
                    internal_error_tail, Event.hasPasswordKey, Option.filter,
                    JVal.truthy, hj, hasKey_str, hasKey_obj, hasKey_bool,
                    hasKeyInFields_cons, hasKeyInFields_nil]
                split
                · rename_i v heq
                  split at heq <;> cases heq <;> try exact hj
                · rfl
              | null =>
                simp [runPipeline, generate_llm_response, h, hrs, format_log,
                  internal_error_tail, Event.hasPasswordKey, Option.filter,
                  JVal.truthy, hj, hasKey_str, hasKey_obj, hasKey_bool,
                  hasKeyInFields_cons, hasKeyInFields_nil]
              | arr xs =>
                simp [runPipeline, generate_llm_response, h, hrs, format_log,
                    internal_error_tail, Event.hasPasswordKey, Option.filter,
                    JVal.truthy, hj, hasKey_str, hasKey_obj, hasKey_bool,
                    hasKeyInFields_cons, hasKeyInFields_nil]
                split
                · rename_i v heq
                  split at heq <;> cases heq <;> try exact hj
                · rfl
  · intro db u p q url
    cases h : (dbGet db u).isSome <;>
      simp [runPipeline, register_user, h]
  · intro db u p q url
    cases h : (dbGet db u).isNone <;>
      simp [runPipeline, update_user_password, h]

/-- Witness for the amended C3: a clean peer echo, and register/update runs
differing only in the password value. -/
theorem events_credential_free_witness :
    ((runPipeline [("alice", "pw")] (PipelineCall.llmGenerate "alice" "hi"
        "/llm/generate" (PeerOutcome.response 200 (PeerBody.json
          (JVal.obj [("response", JVal.str "ok")]))))).1.all
      (fun e => !(e.hasPasswordKey))) = true
    ∧ ((runPipeline [] (PipelineCall.register "alice" "p1" "/register/")).1
        = (runPipeline [] (PipelineCall.register "alice" "p2" "/register/")).1)
    ∧ ((runPipeline [("alice", "p1")]
          (PipelineCall.updateUser "alice" "n1" "/user/alice/")).1
        = (runPipeline [("alice", "p1")]
          (PipelineCall.updateUser "alice" "n2" "/user/alice/")).1) :=
  ⟨events_credential_free.1 [("alice", "pw")]
      (PipelineCall.llmGenerate "alice" "hi" "/llm/generate"
        (PeerOutcome.response 200 (PeerBody.json
          (JVal.obj [("response", JVal.str "ok")])))) (by decide),
   events_credential_free.2.1 [] "alice" "p1" "p2" "/register/",
   events_credential_free.2.2 [("alice", "p1")] "alice" "n1" "n2" "/user/alice/"⟩
